import Mathlib

/-!
Verification of the option-resolution engine of `Intl.DurationFormat`
(`src/core/engine/src/builtins/intl/duration_format/{mod,options}.rs`).

The Rust source is shallowly embedded: pure functions become Lean functions,
fallible operations return `Except JsError`, and the JS options object is
represented by its per-key lookup results (`Option String` per key; the keys
form a closed, compile-time-known set).  Collaborators that live outside the
two source files (the generic options reader `get_option`, `get_number_option`,
the locale negotiator `resolve_locale`, the extension-validity oracle
`validate_extension`) are modelled from the spec, each marked by a doc comment
starting with `Modelled from the spec:`.
-/

namespace Boa

/-- Error kinds raised by the engine (`JsNativeError::range()` / `::typ()` in
the source).  Error messages are elided. -/
inductive JsError
  | typeError
  | rangeError
deriving DecidableEq, Repr

deriving instance DecidableEq for Except

/-- `GlobalStyle` from `options.rs` (variants `Long`, `Short` (default),
`Narrow`, `Digital`). -/
inductive GlobalStyle
  | Long
  | Short
  | Narrow
  | Digital
deriving DecidableEq, Repr, Fintype

/-- `impl FromStr for GlobalStyle` from `options.rs`: parses
`long|short|narrow|digital`; the error payload (a fixed message) is elided. -/
def GlobalStyle.from_str (s : String) : Option GlobalStyle :=
  match s with
  | "long" => some GlobalStyle.Long
  | "short" => some GlobalStyle.Short
  | "narrow" => some GlobalStyle.Narrow
  | "digital" => some GlobalStyle.Digital
  | _ => none

/-- Per-unit `Style` from `options.rs`. -/
inductive Style
  | Long
  | Short
  | Narrow
  | Numeric
  | TwoDigit
  | Fractional
deriving DecidableEq, Repr, Fintype

/-- `impl FromStr for Style` from `options.rs`. -/
def Style.from_str (s : String) : Option Style :=
  match s with
  | "long" => some Style.Long
  | "short" => some Style.Short
  | "narrow" => some Style.Narrow
  | "numeric" => some Style.Numeric
  | "2-digit" => some Style.TwoDigit
  | "fractional" => some Style.Fractional
  | _ => none

/-- `Display` from `options.rs`. -/
inductive Display
  | Auto
  | Always
deriving DecidableEq, Repr, Fintype

/-- `impl FromStr for Display` from `options.rs`. -/
def Display.from_str (s : String) : Option Display :=
  match s with
  | "auto" => some Display.Auto
  | "always" => some Display.Always
  | _ => none

/-- Modelled from the spec: the generic options reader `get_option` (defined in
`builtins/options`, outside the two source files).  An absent key yields
`none`; a present value is parsed by the option type's `FromStr` parser and a
parse failure is a `RangeError`. -/
def getOption {α : Type} (parse : String → Option α) (raw : Option String) :
    Except JsError (Option α) :=
  match raw with
  | none => Except.ok none
  | some s =>
    match parse s with
    | some v => Except.ok (some v)
    | none => Except.error JsError.rangeError

/-- `base_styles` from `options.rs`, verbatim: the source list is
`[Style::Long, Style::Short, Style::Short]` (note the duplicated `Short`;
`Narrow` does not appear). -/
def base_styles : List Style :=
  [Style.Long, Style.Short, Style.Short]

/-- `digital_styles` from `options.rs`: `base_styles` chained with
`[Numeric, TwoDigit]`. -/
def digital_styles : List Style :=
  base_styles ++ [Style.Numeric, Style.TwoDigit]

/-- `fractional_styles` from `options.rs`: `base_styles` chained with
`[Fractional]`. -/
def fractional_styles : List Style :=
  base_styles ++ [Style.Fractional]

/-- `StylesList` from `options.rs`. -/
inductive StylesList
  | Base
  | Digital
  | Fractional
deriving DecidableEq, Repr

/-- `StylesList::list` from `options.rs`. -/
def StylesList.list : StylesList → List Style
  | StylesList.Base => base_styles
  | StylesList.Digital => digital_styles
  | StylesList.Fractional => fractional_styles

/-- `Unit` from `options.rs`: the ten duration components in their fixed
declaration (= traversal) order. -/
inductive Unit
  | Years
  | Months
  | Weeks
  | Days
  | Hours
  | Minutes
  | Seconds
  | Milliseconds
  | Microseconds
  | Nanoseconds
deriving DecidableEq, Repr, Fintype

/-- `Unit::styles_list` from `options.rs`. -/
def Unit.styles_list (u : Unit) : StylesList :=
  if u ∈ [Unit.Years, Unit.Months, Unit.Weeks, Unit.Days] then
    StylesList.Base
  else if u ∈ [Unit.Hours, Unit.Minutes, Unit.Seconds] then
    StylesList.Digital
  else
    StylesList.Fractional

/-- `Unit::digital_default` from `options.rs`. -/
def Unit.digital_default (u : Unit) : Style :=
  if u ∈ [Unit.Years, Unit.Months, Unit.Weeks, Unit.Days] then
    Style.Short
  else if u ∈ [Unit.Microseconds, Unit.Nanoseconds] then
    Style.Fractional
  else
    Style.Numeric

/-- `Unit::style_from_options` from `options.rs`: read the unit's named option
(the raw value under the unit's key is the argument) and reject a parsed style
that is not in the unit's styles list. -/
def Unit.style_from_options (u : Unit) (raw : Option String) :
    Except JsError (Option Style) :=
  match getOption Style.from_str raw with
  | Except.error e => Except.error e
  | Except.ok style =>
    match style with
    | some s =>
      if s ∈ u.styles_list.list then Except.ok (some s)
      else Except.error JsError.rangeError
    | none => Except.ok none

/-- `Unit::display_from_options` from `options.rs`: read the unit's
`<unit>Display` option (raw value given as argument), defaulting to `default`
when absent. -/
def Unit.display_from_options (u : Unit) (raw : Option String)
    (dflt : Display) : Except JsError Display :=
  match getOption Display.from_str raw with
  | Except.error e => Except.error e
  | Except.ok d => Except.ok (d.getD dflt)

/-- `UnitOptions` from `options.rs`: the resolved (style, display) pair of one
unit. -/
structure UnitOptions where
  style : Style
  display : Display
deriving DecidableEq, Repr, Fintype

/-- Modelled from the spec: the conversion from `GlobalStyle` to `Style` used
at step 3.b.ii of `GetDurationUnitOptions` (`base_style.into()` in the source,
whose `From` impl is missing — marked `TODO: Fix this`).  The spec prescribes
the direct 1:1 rename `Long → Long`, `Short → Short`, `Narrow → Narrow` and
states the branch is unreachable for `Digital` (handled at step 3.a); the
`Digital` case is a defensive filler. -/
def Style.fromGlobal : GlobalStyle → Style
  | GlobalStyle.Long => Style.Long
  | GlobalStyle.Short => Style.Short
  | GlobalStyle.Narrow => Style.Narrow
  | GlobalStyle.Digital => Style.Short

/-- Steps 2–4 of `UnitOptions::from_options` (`GetDurationUnitOptions`) from
`options.rs`: compute the resolved style together with `displayDefault`.
`prev_style` is `none` for the "empty" sentinel preceding the first digital
unit (the source's caller, being absent, fixes no concrete sentinel; the spec
seeds an "empty/none" sentinel). -/
def resolveStyleDefault (unit : Unit) (styleOpt : Option Style)
    (base_style : GlobalStyle) (prev_style : Option Style) : Style × Display :=
  -- Step 2: displayDefault starts as "always"; step 3 applies only when the
  -- explicit style is absent.
  let sd : Style × Display :=
    match styleOpt with
    | some s => (s, Display.Always)
    | none =>
      if base_style = GlobalStyle.Digital then
        (unit.digital_default,
          if unit ∈ [Unit.Hours, Unit.Minutes, Unit.Seconds] then Display.Always
          else Display.Auto)
      else if prev_style ∈ [some Style.Fractional, some Style.Numeric,
          some Style.TwoDigit] then
        (Style.Numeric,
          if unit ∈ [Unit.Minutes, Unit.Seconds] then Display.Always
          else Display.Auto)
      else
        (Style.fromGlobal base_style, Display.Auto)
  -- Step 4: numeric style on a sub-second unit becomes fractional.
  if sd.1 = Style.Numeric ∧
      unit ∈ [Unit.Milliseconds, Unit.Microseconds, Unit.Nanoseconds] then
    (Style.Fractional, Display.Auto)
  else
    sd

/-- Steps 7–10 of `UnitOptions::from_options` from `options.rs`: the
cross-unit validation checks and the final record. -/
def checkAndFinish (unit : Unit) (prev_style : Option Style) (style : Style)
    (display : Display) : Except JsError UnitOptions :=
  if display = Display.Always ∧ style = Style.Fractional then
    Except.error JsError.rangeError
  else if prev_style = some Style.Fractional ∧ style ≠ Style.Fractional then
    Except.error JsError.rangeError
  else if prev_style = some Style.Numeric ∨ prev_style = some Style.TwoDigit then
    if ¬(style = Style.Fractional ∨ style = Style.Numeric ∨
        style = Style.TwoDigit) then
      Except.error JsError.rangeError
    else if unit ∈ [Unit.Minutes, Unit.Seconds] then
      Except.ok ⟨Style.TwoDigit, display⟩
    else
      Except.ok ⟨style, display⟩
  else
    Except.ok ⟨style, display⟩

/-- `GetDurationUnitOptions` after the two option reads: styles and displays
already parsed.  Composition of steps 2–4, the display defaulting of step 6,
and steps 7–10. -/
def getDurationUnitOptionsCore (unit : Unit) (styleOpt : Option Style)
    (displayOpt : Option Display) (base_style : GlobalStyle)
    (prev_style : Option Style) : Except JsError UnitOptions :=
  let sd := resolveStyleDefault unit styleOpt base_style prev_style
  checkAndFinish unit prev_style sd.1 (displayOpt.getD sd.2)

/-- `UnitOptions::from_options` (`GetDurationUnitOptions`) from `options.rs`:
steps 1–10 for one unit.  `rawStyle` / `rawDisplay` are the raw values of the
unit's style and `<unit>Display` keys. -/
def UnitOptions.from_options (unit : Unit) (rawStyle rawDisplay : Option String)
    (base_style : GlobalStyle) (prev_style : Option Style) :
    Except JsError UnitOptions := do
  -- Step 1.
  let styleOpt ← unit.style_from_options rawStyle
  -- Steps 2-4.
  let sd := resolveStyleDefault unit styleOpt base_style prev_style
  -- Steps 5-6.
  let display ← unit.display_from_options rawDisplay sd.2
  -- Steps 7-10.
  checkAndFinish unit prev_style sd.1 display

/-- The units whose resolved style is carried into `prevStyle` (step 17.i of
the constructor's quoted algorithm; spec §4.3 step 6). -/
def carryUnits : List Unit :=
  [Unit.Hours, Unit.Minutes, Unit.Seconds, Unit.Milliseconds, Unit.Microseconds]

/-- The fixed traversal order (the `Unit` declaration order, Table 3 order). -/
def unitsInOrder : List Unit :=
  [Unit.Years, Unit.Months, Unit.Weeks, Unit.Days, Unit.Hours, Unit.Minutes,
   Unit.Seconds, Unit.Milliseconds, Unit.Microseconds, Unit.Nanoseconds]

/-- One resolution pass over a list of units threading the `prevStyle`
accumulator, failing on the first per-unit `RangeError`. -/
def resolveUnitsFrom (styleOf displayOf : Unit → Option String)
    (base_style : GlobalStyle) :
    List Unit → Option Style → Except JsError (List (Unit × UnitOptions))
  | [], _ => Except.ok []
  | u :: rest, prev => do
    let r ← UnitOptions.from_options u (styleOf u) (displayOf u) base_style prev
    let tail ← resolveUnitsFrom styleOf displayOf base_style rest
      (if u ∈ carryUnits then some r.style else prev)
    Except.ok ((u, r) :: tail)

/-- Modelled from the spec: `DurationUnitOptions::from_options`, the ordered
traversal of the ten units (constructor step 17).  Its Rust definition is
commented out in `options.rs` (only its caller at `mod.rs:170` remains), so it
is modelled from spec §4.3: iterate the units in fixed order, seed `prevStyle`
with the empty sentinel (`none`), resolve each unit with
`UnitOptions::from_options`, update `prevStyle` only after the units in
`carryUnits`, and fail the construction on the first `RangeError`. -/
def DurationUnitOptions.from_options (styleOf displayOf : Unit → Option String)
    (base_style : GlobalStyle) : Except JsError (List (Unit × UnitOptions)) :=
  resolveUnitsFrom styleOf displayOf base_style unitsInOrder none

/-- `GlobalStyle::from_options` from `options.rs`:
`get_option(options, "style", context).unwrap_or_default().unwrap_or_default()`.
The first `unwrap_or_default` maps a reader error to `None` (the `Option`
default), the second maps `None` to `GlobalStyle::Short` (the derived
default) — so a reader failure is swallowed, not propagated. -/
def GlobalStyle.from_options (raw : Option String) : GlobalStyle :=
  match getOption GlobalStyle.from_str raw with
  | Except.error _ => GlobalStyle.Short
  | Except.ok none => GlobalStyle.Short
  | Except.ok (some g) => g

/-- `icu_locid::Locale` as used by `DurationFormat::resolve`: the language
identifier plus the unicode extension keywords (an association list keyed by
extension key; only the keywords are touched by the source). -/
structure Locale where
  id : String
  keywords : List (String × String)
deriving DecidableEq, Repr

/-- `keywords.get(&key)` on the unicode extension keyword map. -/
def keywordsGet (kws : List (String × String)) (k : String) : Option String :=
  (kws.find? (fun kv => kv.1 = k)).map (fun kv => kv.2)

/-- `DurationFormatLocaleOptions` from `mod.rs`. -/
structure DurationFormatLocaleOptions where
  numbering_system : Option String
deriving DecidableEq, Repr

/-- `DurationFormat::resolve` from `mod.rs` (the `Service` hook invoked by
`resolve_locale`).  `oracle` stands for the external
`validate_extension::<DecimalSymbolsV1Marker>(locale.id, key "nu", value,
provider)` call: it receives the locale id and the candidate numbering-system
value.  The explicit numbering system is kept only if the oracle validates it;
otherwise the locale's own `nu` keyword is tried the same way.  All unicode
extensions are then cleared and only the validated `nu` keyword (if any) is
written back. -/
def DurationFormat.resolve (oracle : String → String → Bool) (locale : Locale)
    (options : DurationFormatLocaleOptions) :
    Locale × DurationFormatLocaleOptions :=
  let numbering_system :=
    (options.numbering_system.filter (fun nu => oracle locale.id nu)).orElse
      (fun _ =>
        (keywordsGet locale.keywords "nu").filter (fun nu => oracle locale.id nu))
  let locale2 : Locale :=
    { locale with
      keywords :=
        match numbering_system with
        | some nu => [("nu", nu)]
        | none => [] }
  (locale2, { numbering_system := numbering_system })

/-- Modelled from the spec: `get_number_option` (`GetNumberOption`), defined
in `intl/options.rs` outside the two source files: an integer option bounded
to `[lo, hi]` inclusive; absent stays absent (`none`, distinct from `0`); an
out-of-bound value is a `RangeError`. -/
def get_number_option (raw : Option Int) (lo hi : Int) :
    Except JsError (Option Int) :=
  match raw with
  | none => Except.ok none
  | some n =>
    if n < lo ∨ hi < n then Except.error JsError.rangeError
    else Except.ok (some n)

/-- `DurationFormat` from `mod.rs` (lines 32–40): the data carried by the
constructed object.  Its fields are exactly `locale`, `numbering_system`,
`style` and `fractional_digits` — the struct declares no slot for the ten
resolved per-unit (style, display) pairs. -/
structure DurationFormat where
  locale : Locale
  numbering_system : Option String
  style : GlobalStyle
  fractional_digits : Option Int
deriving DecidableEq, Repr

/-- The caller-supplied options object, represented by its per-key lookup
results: the top-level `style` key, the per-unit style keys (`"years"`, …),
the per-unit display keys (`"yearsDisplay"`, …), the `numberingSystem` key
(already past the external Unicode-identifier syntax check, which lives in
`icu_locid`) and the `fractionalDigits` key. -/
structure Options where
  style : Option String
  unitStyle : Unit → Option String
  unitDisplay : Unit → Option String
  numberingSystem : Option String
  fractionalDigits : Option Int

/-- `DurationFormat::constructor` from `mod.rs` (steps 3–19).  The external
locale negotiation (`canonicalize_locale_list` + `resolve_locale`, steps 3
and 9–10) is represented by the negotiated locale `negotiated`, on which the
`DurationFormat::resolve` hook is applied exactly as `resolve_locale` does;
`oracle` is the extension-validity oracle.  Step 13 calls
`GlobalStyle::from_options` (which swallows reader errors), step 17 the unit
traversal (whose failure aborts the construction, spec §4.3/§7), step 18
`get_number_option` with bounds 0 and 9.  The returned record is the `Self`
literal of `mod.rs:183-188`: only `locale`, `style`, `fractional_digits` and
the numbering system are stored. -/
def DurationFormat.constructor (oracle : String → String → Bool)
    (negotiated : Locale) (options : Options) :
    Except JsError DurationFormat := do
  let res := DurationFormat.resolve oracle negotiated
    { numbering_system := options.numberingSystem }
  let style := GlobalStyle.from_options options.style
  let _unitOptions ← DurationUnitOptions.from_options options.unitStyle
    options.unitDisplay style
  let fractional_digits ← get_number_option options.fractionalDigits 0 9
  Except.ok
    { locale := res.1
      numbering_system := res.2.numbering_system
      style := style
      fractional_digits := fractional_digits }

/-! ### Test fixtures: concrete locales, oracles and option objects -/

/-- A negotiated locale with no extension keywords. -/
def testLocale : Locale := { id := "en", keywords := [] }

/-- An oracle that supports no numbering system. -/
def noOracle : String → String → Bool := fun _ _ => false

/-- The empty options object: every key absent. -/
def defaultOptions : Options :=
  { style := none
    unitStyle := fun _ => none
    unitDisplay := fun _ => none
    numberingSystem := none
    fractionalDigits := none }

/-- Options with only `yearsDisplay: "always"` provided. -/
def yearsAlwaysOptions : Options :=
  { defaultOptions with
    unitDisplay := fun u => if u = Unit.Years then some "always" else none }

/-- Options with `hours: "numeric"` and `minutes: "long"`, all else absent. -/
def hoursNumericMinutesLongOptions : Options :=
  { defaultOptions with
    unitStyle := fun u =>
      if u = Unit.Hours then some "numeric"
      else if u = Unit.Minutes then some "long"
      else none }

/-! ### Helper lemmas -/

/-- A successful run of `UnitOptions::from_options` factors through the two
option reads followed by `getDurationUnitOptionsCore`. -/
theorem from_options_ok_core (u : Unit) (rS rD : Option String)
    (b : GlobalStyle) (p : Option Style) (r : UnitOptions)
    (h : UnitOptions.from_options u rS rD b p = Except.ok r) :
    ∃ s d, u.style_from_options rS = Except.ok s ∧
      getOption Display.from_str rD = Except.ok d ∧
      getDurationUnitOptionsCore u s d b p = Except.ok r := by
  unfold UnitOptions.from_options at h
  cases h1 : u.style_from_options rS with
  | error e => rw [h1] at h; simp [Bind.bind, Except.bind] at h
  | ok s =>
    rw [h1] at h
    unfold Unit.display_from_options at h
    cases h2 : getOption Display.from_str rD with
    | error e => rw [h2] at h; simp [Bind.bind, Except.bind] at h
    | ok d =>
      rw [h2] at h
      refine ⟨s, d, rfl, rfl, ?_⟩
      simpa [Bind.bind, Except.bind, getDurationUnitOptionsCore] using h

/-- A style accepted by `Unit::style_from_options` belongs to the unit's
styles list. -/
theorem style_from_options_mem (u : Unit) (rS : Option String) (s : Style)
    (h : u.style_from_options rS = Except.ok (some s)) :
    s ∈ u.styles_list.list := by
  unfold Unit.style_from_options at h
  cases h1 : getOption Style.from_str rS with
  | error e => rw [h1] at h; exact absurd h (by simp)
  | ok st =>
    rw [h1] at h
    match st with
    | none => simp at h
    | some t =>
      by_cases hm : t ∈ u.styles_list.list
      · simp [hm] at h
        exact h ▸ hm
      · simp [hm] at h

/-- Shape of a successful `checkAndFinish` run: the returned display is the
one passed in, the returned style is the one passed in or the forced
`TwoDigit`, and the step-7 incompatibility did not hold. -/
theorem checkAndFinish_ok_shape (unit : Unit) (p : Option Style)
    (style : Style) (display : Display) (r : UnitOptions)
    (h : checkAndFinish unit p style display = Except.ok r) :
    r.display = display ∧ (r.style = style ∨ r.style = Style.TwoDigit) ∧
      ¬(display = Display.Always ∧ style = Style.Fractional) := by
  unfold checkAndFinish at h
  split_ifs at h with h1 h2 h3 h4 h5 <;> cases h
  · exact ⟨rfl, Or.inr rfl, h1⟩
  · exact ⟨rfl, Or.inl rfl, h1⟩
  · exact ⟨rfl, Or.inl rfl, h1⟩

/-- Core invariant: a successful `GetDurationUnitOptions` never returns
`display = Always` together with `style = Fractional`. -/
theorem core_no_always_fractional (u : Unit) (s : Option Style)
    (d : Option Display) (b : GlobalStyle) (p : Option Style) (r : UnitOptions)
    (h : getDurationUnitOptionsCore u s d b p = Except.ok r) :
    ¬(r.display = Display.Always ∧ r.style = Style.Fractional) := by
  unfold getDurationUnitOptionsCore at h
  obtain ⟨hd, hs, hna⟩ := checkAndFinish_ok_shape _ _ _ _ _ h
  rintro ⟨hAlways, hFrac⟩
  rcases hs with hs | hs
  · exact hna ⟨hd.symm.trans hAlways, hs.symm.trans hFrac⟩
  · exact absurd (hs.symm.trans hFrac) (by decide)

/-- An explicitly allowed `Numeric` style only exists for units outside the
sub-second trio, so step 4 never fires on a validated explicit style. -/
theorem valid_numeric_not_subsecond (u : Unit)
    (hu : u ∈ [Unit.Milliseconds, Unit.Microseconds, Unit.Nanoseconds]) :
    Style.Numeric ∉ u.styles_list.list := by
  fin_cases hu <;> decide

/-- Core lemma: with an explicit style drawn from the unit's styles list and
no display option, a successful resolution has `display = Always`. -/
theorem core_explicit_style_display_always (u : Unit) (s : Style)
    (b : GlobalStyle) (p : Option Style) (r : UnitOptions)
    (hmem : s ∈ u.styles_list.list)
    (h : getDurationUnitOptionsCore u (some s) none b p = Except.ok r) :
    r.display = Display.Always := by
  have hnot : ¬(s = Style.Numeric ∧
      u ∈ [Unit.Milliseconds, Unit.Microseconds, Unit.Nanoseconds]) := by
    rintro ⟨rfl, hu⟩
    exact valid_numeric_not_subsecond u hu hmem
  simp only [getDurationUnitOptionsCore, resolveStyleDefault, if_neg hnot,
    Option.getD_none] at h
  exact (checkAndFinish_ok_shape _ _ _ _ _ h).1

/-- Look up one unit's resolved options in a traversal result. -/
def lookupUnit (l : List (Unit × UnitOptions)) (u : Unit) : Option UnitOptions :=
  (l.find? (fun e => e.1 = u)).map (fun e => e.2)

/-! ### Claim theorems -/

/-- Claim C1 (code evaluated at the failing input): the constructed
`DurationFormat` does not expose the ten resolved per-unit (style, display)
pairs.  The empty options object and the object `{yearsDisplay: "always"}`
resolve to different per-unit options (years' display differs), yet the
constructor returns identical records, because the `DurationFormat` struct
stores only locale, numbering system, global style and fractional digits. -/
theorem constructor_drops_unit_options :
    DurationFormat.constructor noOracle testLocale defaultOptions =
      DurationFormat.constructor noOracle testLocale yearsAlwaysOptions ∧
    DurationUnitOptions.from_options defaultOptions.unitStyle
        defaultOptions.unitDisplay
        (GlobalStyle.from_options defaultOptions.style) ≠
      DurationUnitOptions.from_options yearsAlwaysOptions.unitStyle
        yearsAlwaysOptions.unitDisplay
        (GlobalStyle.from_options yearsAlwaysOptions.style) := by
  constructor
  · decide
  · decide

/-- Claim C2 (code evaluated at the failing input): an explicit `"narrow"`
per-unit style is rejected with a `RangeError` for every unit, because the
source's `base_styles` list is `[Long, Short, Short]` — `Narrow` is absent
from every unit's allowed list (though `Style::from_str` parses it). -/
theorem narrow_rejected_for_every_unit :
    ∀ u : Unit,
      u.style_from_options (some "narrow") = Except.error JsError.rangeError ∧
      Style.from_str "narrow" = some Style.Narrow := by
  decide

/-- Claim C3 (code evaluated at the failing input): for a disallowed top-level
style value the generic options reader raises a `RangeError`, but
`GlobalStyle::from_options` swallows it with `unwrap_or_default` twice and
yields the default `Short`; construction succeeds.  The absent and valid cases
behave as claimed. -/
theorem invalid_global_style_swallowed :
    GlobalStyle.from_options (some "bogus") = GlobalStyle.Short ∧
    getOption GlobalStyle.from_str (some "bogus") =
      Except.error JsError.rangeError ∧
    (DurationFormat.constructor noOracle testLocale
        { defaultOptions with style := some "bogus" }).isOk = true ∧
    GlobalStyle.from_options none = GlobalStyle.Short ∧
    GlobalStyle.from_options (some "long") = GlobalStyle.Long ∧
    GlobalStyle.from_options (some "short") = GlobalStyle.Short ∧
    GlobalStyle.from_options (some "narrow") = GlobalStyle.Narrow ∧
    GlobalStyle.from_options (some "digital") = GlobalStyle.Digital := by
  decide

/-- Claim C4, counterexample: with global style `digital` and no per-unit
overrides, minutes does not resolve to `(Numeric, Always)` — the `prevStyle`
carried from hours is `Numeric`, so step 9.b forces minutes (and seconds) to
`TwoDigit`. -/
theorem digital_minutes_not_numeric :
    (DurationUnitOptions.from_options defaultOptions.unitStyle
        defaultOptions.unitDisplay GlobalStyle.Digital).map
      (fun l => lookupUnit l Unit.Minutes) =
      Except.ok (some ⟨Style.TwoDigit, Display.Always⟩) ∧
    (some (⟨Style.TwoDigit, Display.Always⟩ : UnitOptions) ≠
      some (⟨Style.Numeric, Display.Always⟩ : UnitOptions)) := by
  decide

/-- Claim C4, amended: with global style `digital` and no overrides the full
resolution succeeds with hours `(Numeric, Always)`, minutes and seconds
`(TwoDigit, Always)`, milliseconds/microseconds/nanoseconds
`(Fractional, Auto)`, and years/months/weeks/days `(Short, Auto)`. -/
theorem digital_default_resolution :
    DurationUnitOptions.from_options defaultOptions.unitStyle
        defaultOptions.unitDisplay GlobalStyle.Digital =
      Except.ok
        [(Unit.Years, ⟨Style.Short, Display.Auto⟩),
         (Unit.Months, ⟨Style.Short, Display.Auto⟩),
         (Unit.Weeks, ⟨Style.Short, Display.Auto⟩),
         (Unit.Days, ⟨Style.Short, Display.Auto⟩),
         (Unit.Hours, ⟨Style.Numeric, Display.Always⟩),
         (Unit.Minutes, ⟨Style.TwoDigit, Display.Always⟩),
         (Unit.Seconds, ⟨Style.TwoDigit, Display.Always⟩),
         (Unit.Milliseconds, ⟨Style.Fractional, Display.Auto⟩),
         (Unit.Microseconds, ⟨Style.Fractional, Display.Auto⟩),
         (Unit.Nanoseconds, ⟨Style.Fractional, Display.Auto⟩)] := by
  decide

/-- Claim C5: with `hours: "numeric"`, `minutes: "long"` and all else absent,
for every non-digital global style the unit traversal raises a `RangeError`
(`prevStyle` entering minutes is `Numeric` and `Long` is not in
`{Fractional, Numeric, TwoDigit}`), and the full construction (whose default
global style is `short`) fails with a `RangeError`. -/
theorem hours_numeric_minutes_long_range_error :
    ∀ g : GlobalStyle, g ≠ GlobalStyle.Digital →
      DurationUnitOptions.from_options hoursNumericMinutesLongOptions.unitStyle
          hoursNumericMinutesLongOptions.unitDisplay g =
        Except.error JsError.rangeError ∧
      DurationFormat.constructor noOracle testLocale
          hoursNumericMinutesLongOptions =
        Except.error JsError.rangeError := by
  decide

/-- Witness for C5 at the default (`short`) global style. -/
theorem hours_numeric_minutes_long_range_error_witness :
    DurationUnitOptions.from_options hoursNumericMinutesLongOptions.unitStyle
        hoursNumericMinutesLongOptions.unitDisplay GlobalStyle.Short =
      Except.error JsError.rangeError ∧
    DurationFormat.constructor noOracle testLocale
        hoursNumericMinutesLongOptions =
      Except.error JsError.rangeError :=
  hours_numeric_minutes_long_range_error GlobalStyle.Short (by decide)

/-- Claim C7: `fractionalDigits` is bounded to `[0, 9]` — any provided integer
outside the bound is a `RangeError`, an in-range value is stored as given, and
an absent option yields `none`, distinguishable from `some 0`; the constructor
stores the value unchanged. -/
theorem fractional_digits_bounds :
    (∀ n : Int,
      get_number_option (some n) 0 9 =
        if n < 0 ∨ 9 < n then Except.error JsError.rangeError
        else Except.ok (some n)) ∧
    get_number_option none 0 9 = Except.ok none ∧
    get_number_option none 0 9 ≠ get_number_option (some 0) 0 9 ∧
    (DurationFormat.constructor noOracle testLocale
        { defaultOptions with fractionalDigits := some 5 }).map
      (fun df => df.fractional_digits) = Except.ok (some 5) ∧
    (DurationFormat.constructor noOracle testLocale
        { defaultOptions with fractionalDigits := some 10 }) =
      Except.error JsError.rangeError ∧
    (DurationFormat.constructor noOracle testLocale defaultOptions).map
      (fun df => df.fractional_digits) = Except.ok none := by
  refine ⟨fun n => rfl, by decide, by decide, by decide, by decide, by decide⟩

/-- Claim C6: a successful per-unit resolution never returns
`display = Always` together with `style = Fractional`; whenever that
combination reaches the validation step, a `RangeError` is raised instead. -/
theorem unit_options_no_always_fractional :
    (∀ (u : Unit) (rawS rawD : Option String) (b : GlobalStyle)
       (p : Option Style) (r : UnitOptions),
      UnitOptions.from_options u rawS rawD b p = Except.ok r →
      ¬(r.display = Display.Always ∧ r.style = Style.Fractional)) ∧
    (∀ (u : Unit) (p : Option Style),
      checkAndFinish u p Style.Fractional Display.Always =
        Except.error JsError.rangeError) := by
  constructor
  · intro u rawS rawD b p r h
    obtain ⟨s, d, _, _, hcore⟩ := from_options_ok_core u rawS rawD b p r h
    exact core_no_always_fractional u s d b p r hcore
  · decide

/-- Witness for C6: the default resolution of years under global style
`short` yields `(Short, Auto)`, which indeed does not pair `Always` with
`Fractional`. -/
theorem unit_options_no_always_fractional_witness :
    ¬((⟨Style.Short, Display.Auto⟩ : UnitOptions).display = Display.Always ∧
      (⟨Style.Short, Display.Auto⟩ : UnitOptions).style = Style.Fractional) :=
  unit_options_no_always_fractional.1 Unit.Years none none GlobalStyle.Short
    none ⟨Style.Short, Display.Auto⟩ (by decide)

/-- Claim C10: when the per-unit style option is explicitly provided (and
accepted against the unit's allowed set) and the display option is absent,
the display default is `Always`; consequently an explicit `"fractional"`
style for a sub-second unit without `"auto"` display raises a `RangeError`. -/
theorem explicit_style_display_default_always :
    (∀ (u : Unit) (rawS : Option String) (s : Style) (b : GlobalStyle)
       (p : Option Style) (r : UnitOptions),
      u.style_from_options rawS = Except.ok (some s) →
      UnitOptions.from_options u rawS none b p = Except.ok r →
      r.display = Display.Always) ∧
    (∀ u : Unit,
      u ∈ [Unit.Milliseconds, Unit.Microseconds, Unit.Nanoseconds] →
      ∀ (b : GlobalStyle) (p : Option Style),
        UnitOptions.from_options u (some "fractional") none b p =
          Except.error JsError.rangeError ∧
        UnitOptions.from_options u (some "fractional") (some "always") b p =
          Except.error JsError.rangeError) := by
  constructor
  · intro u rawS s b p r h1 h2
    obtain ⟨s2, d2, hs2, hd2, hcore⟩ := from_options_ok_core u rawS none b p r h2
    have hs : s2 = some s := by
      have := h1.symm.trans hs2
      exact (Except.ok.injEq _ _).mp this.symm
    have hd : d2 = none := by
      have : (Except.ok none : Except JsError (Option Display)) = Except.ok d2 := hd2
      exact ((Except.ok.injEq _ _).mp this).symm
    rw [hs, hd] at hcore
    exact core_explicit_style_display_always u s b p r
      (style_from_options_mem u rawS s h1) hcore
  · decide

/-- Witness for C10: milliseconds with explicit `"fractional"` style and no
display option fails with a `RangeError`. -/
theorem explicit_style_display_default_always_witness :
    UnitOptions.from_options Unit.Milliseconds (some "fractional") none
        GlobalStyle.Short none = Except.error JsError.rangeError ∧
    UnitOptions.from_options Unit.Milliseconds (some "fractional")
        (some "always") GlobalStyle.Short none =
      Except.error JsError.rangeError :=
  explicit_style_display_default_always.2 Unit.Milliseconds (by decide)
    GlobalStyle.Short none

/-- Claim C9: after `DurationFormat::resolve` the locale's unicode extension
keywords are exactly the validated numbering-system keyword when one was
validated, and empty otherwise — every previously present keyword is gone. -/
theorem resolve_keywords_exact (oracle : String → String → Bool) (loc : Locale)
    (opts : DurationFormatLocaleOptions) :
    (DurationFormat.resolve oracle loc opts).1.keywords =
      match (DurationFormat.resolve oracle loc opts).2.numbering_system with
      | some nu => [("nu", nu)]
      | none => [] := by
  rfl

/-- An oracle that supports exactly the numbering system `thai`. -/
def thaiOracle : String → String → Bool := fun _ v => v == "thai"

/-- A negotiated locale that carries its own `nu` keyword. -/
def thaiLocale : Locale := { id := "th", keywords := [("nu", "thai")] }

/-- Claim C8, counterexample: an explicit numbering system (`latn`) that the
oracle reports unsupported for the negotiated locale does not leave the
numbering-system field absent — the field falls back to the locale's own
validated `nu` keyword `thai`. -/
theorem unsupported_numbering_system_not_absent :
    thaiOracle thaiLocale.id "latn" = false ∧
    (DurationFormat.resolve thaiOracle thaiLocale
        { numbering_system := some "latn" }).2.numbering_system = some "thai" ∧
    some "thai" ≠ (none : Option String) := by
  decide

/-- Claim C8, amended: locale resolution never fails and construction
succeeds; an explicit numbering system rejected by the oracle is dropped, and
the numbering-system field falls back to the negotiated locale's own `nu`
keyword filtered through the oracle — so it is absent exactly when the locale
carries no validated `nu` keyword of its own. -/
theorem unsupported_numbering_system_dropped (oracle : String → String → Bool)
    (loc : Locale) (nuReq : String) (h : oracle loc.id nuReq = false) :
    (DurationFormat.resolve oracle loc
        { numbering_system := some nuReq }).2.numbering_system =
      (keywordsGet loc.keywords "nu").filter (fun nu => oracle loc.id nu) ∧
    (DurationFormat.constructor thaiOracle thaiLocale
        { defaultOptions with numberingSystem := some "latn" }).isOk = true := by
  constructor
  · unfold DurationFormat.resolve
    simp [Option.filter, Option.orElse, h]
  · decide

/-- Witness for C8's amended statement at the concrete Thai locale. -/
theorem unsupported_numbering_system_dropped_witness :
    (DurationFormat.resolve thaiOracle thaiLocale
        { numbering_system := some "latn" }).2.numbering_system =
      (keywordsGet thaiLocale.keywords "nu").filter
        (fun nu => thaiOracle thaiLocale.id nu) :=
  (unsupported_numbering_system_dropped thaiOracle thaiLocale "latn"
    (by decide)).1

end Boa
